import Mathlib

/-!
Verification development for the surfman context/surface/framebuffer
lifecycle.  The definitions below are a shallow embedding of
`src/platform/windows/angle/context.rs` (the ANGLE/Windows Context and
Device methods) and `src/platform/glx/gl_context.rs` (the GLX
`GLContext::make_current` path).  Native GL/CGL/EGL calls are modelled as
events appended to an explicit trace inside a `GLState`, and their
fallible outcomes are drawn from an `Env` record, so that each control
path of the source is represented exactly, including its error paths.
-/

namespace Surfman

/-- Two-dimensional size, as in `euclid::Size2D<i32>` used by surface
descriptors. -/
structure Size where
  width : Int
  height : Int
  deriving DecidableEq

/-- Surface descriptor: size plus pixel format.  Only the size is consulted
by the code under verification (the fast-path check compares sizes alone). -/
structure SurfaceDescriptor where
  size : Size
  format : Nat
  deriving DecidableEq

/-- Modelled from the spec: a Surface is an offscreen GPU-backed color
buffer with a size/format descriptor (the surface module itself is not
among the sources).  The `id` stands for the identity of the backing GPU
allocation, so that "returned by identity" is expressible. -/
structure Surface where
  id : Nat
  descriptor : SurfaceDescriptor
  deriving DecidableEq

/-- Modelled from the spec: a SurfaceTexture wraps a Surface plus the GL
texture id that exposes it, and owns the Surface for its lifetime. -/
structure SurfaceTexture where
  surface : Surface
  gl_texture : Nat
  deriving DecidableEq

/-- Modelled from the spec: Renderbuffers are auxiliary depth/stencil
storage sized to match a surface, created/destroyed alongside a
framebuffer object (`Renderbuffers` lives in the surface module, not among
the sources). -/
structure Renderbuffers where
  size : Size
  deriving DecidableEq

/-- GL viewport rectangle as set by `gl::Viewport`. -/
structure Viewport where
  x : Int
  y : Int
  width : Int
  height : Int
  deriving DecidableEq

/-- Events recording every native call the embedded code performs; one
constructor per native entry point touched by the sources. -/
inductive Event where
  | setCurrentContext (handle : Nat)
  | flush
  | choosePixelFormat (attrs : List Nat)
  | createNativeContext (handle : Nat)
  | genFramebuffer (fbo : Nat)
  | bindFramebuffer (fbo : Nat)
  | framebufferTexture2D (fbo tex : Nat)
  | newRenderbuffers (size : Size)
  | bindRenderbuffersToFramebuffer (size : Size)
  | viewportSet (x y w h : Int)
  | deleteFramebuffer (fbo : Nat)
  | destroyRenderbuffers (size : Size)
  | createSurfaceTexture (surface tex : Nat)
  | createSurfaceTextureFailed (surface : Nat)
  | destroySurfaceTexture (tex : Nat)
  | destroySurfaceTextureFailed (tex : Nat)
  | destroySurface (surface : Nat)
  | destroySurfaceFailed (surface : Nat)
  | releaserRelease (releaser handle : Nat)
  | loadGL
  | unreachableHit
  deriving DecidableEq

/-- Process-and-thread GL state threaded through every operation:
the thread's current context, the viewport, a fresh-id counter for GL
object generation, the `CREATE_CONTEXT_MUTEX`-guarded "a context was
already created (GL symbols loaded)" flag, and the trace of native calls. -/
structure GLState where
  currentContext : Nat
  viewport : Viewport
  nextId : Nat
  contextCreated : Bool
  trace : List Event
  deriving DecidableEq

/-- Append a native-call event to the trace. -/
def GLState.emit (st : GLState) (e : Event) : GLState :=
  { st with trace := st.trace ++ [e] }

/-- The surfman error enum (`Error` in lib.rs, reproduced by the spec's
external-interface section); native-call failures carry the underlying
platform error code. -/
inductive Error where
  | UnsupportedGLType
  | PixelFormatSelectionFailed (code : Nat)
  | NoPixelFormatFound
  | ContextCreationFailed (code : Nat)
  | MakeCurrentFailed (code : Nat)
  | WindowAttached
  | NoSurfaceAttached
  | NoGLLibraryFound
  | GLFunctionNotFound
  deriving DecidableEq

/-- Outcomes of the fallible native calls, fixed per environment.  A zero
CGL code means `kCGLNoError`; `none` means the surface-module call
succeeds. -/
structure Env where
  choosePixelFormatErr : Nat
  pixelFormatCount : Nat
  createContextErr : Nat
  setCurrentErr : Nat
  createSurfaceTextureErr : Option Error
  destroySurfaceTextureErr : Option Error
  destroySurfaceErr : Option Error
  deriving DecidableEq

/-- Context attribute flags (`ContextAttributeFlags` bitflags): presence of
alpha, depth and stencil channels. -/
structure ContextAttributeFlags where
  alpha : Bool
  depth : Bool
  stencil : Bool
  deriving DecidableEq

/-- The GL API kind requested (`GLApi`). -/
inductive GLApi where
  | GL
  | GLES
  deriving DecidableEq

/-- GL version (`GLVersion`). -/
structure GLVersion where
  major : Nat
  minor : Nat
  deriving DecidableEq

/-- GL flavor (`GLFlavor`): API kind plus version. -/
structure GLFlavor where
  api : GLApi
  version : GLVersion
  deriving DecidableEq

/-- Context attributes (`ContextAttributes`): flags plus flavor, the input
to context creation. -/
structure ContextAttributes where
  flags : ContextAttributeFlags
  flavor : GLFlavor
  deriving DecidableEq

/-- Modelled from the spec: `GLInfo` (declared in lib.rs, not among the
sources) owns GL capability info; `GLInfo::new(attributes)` records the
attribute set it was created from, and `populate()` queries capabilities
once the context is current (queried once, immutable thereafter). -/
structure GLInfo where
  attributes : ContextAttributes
  populated : Bool
  deriving DecidableEq

/-- Modelled from the spec: `GLInfo::new` records the creation attributes
with capabilities not yet populated. -/
def GLInfo.new (attributes : ContextAttributes) : GLInfo :=
  { attributes := attributes, populated := false }

/-- Modelled from the spec: `GLInfo::populate` performs the one-time
capability query against the current context. -/
def GLInfo.populate (info : GLInfo) : GLInfo :=
  { info with populated := true }

/-- The `Framebuffer` tagged variant: what a Context currently renders
into. -/
inductive Framebuffer where
  | none
  | window
  | object (framebuffer_object : Nat) (color_surface_texture : SurfaceTexture)
      (renderbuffers : Renderbuffers)
  deriving DecidableEq

/-- The `Context` struct: native context handle (0 is the null sentinel
meaning "already destroyed"), current framebuffer, GL info, and the
releaser identity invoked at destruction.  The source file declares the
handle field as `egl_context` but every method body reads and writes
`cgl_context`; the methods are the authority here. -/
structure Context where
  cgl_context : Nat
  framebuffer : Framebuffer
  gl_info : GLInfo
  releaser : Nat
  deriving DecidableEq

/-- The releaser identity of `OwnedCGLContext`, installed by
`create_context`. -/
def ownedCGLContextReleaser : Nat := 0

/-- The `Device` struct; its native display/adapter fields are irrelevant to
the operations verified here. -/
structure Device where
  deviceId : Nat
  deriving DecidableEq

/-- Embedding of `Device::make_context_current` (context.rs lines 277-285): a plain
`CGLSetCurrentContext` on the context's handle, failing with
`MakeCurrentFailed` exactly when the native call reports an error. -/
def make_context_current (env : Env) (st : GLState) (context : Context) :
    Except Error Unit × GLState :=
  let st := st.emit (.setCurrentContext context.cgl_context)
  if env.setCurrentErr ≠ 0 then
    (.error (.MakeCurrentFailed env.setCurrentErr), st)
  else
    (.ok (), { st with currentContext := context.cgl_context })

/-- Modelled from the spec: `create_surface_texture` (surface module, not
among the sources) wraps a Surface as a bindable GL texture, allocating a
fresh texture id; native failure comes from the environment. -/
def create_surface_texture (env : Env) (st : GLState) (surface : Surface) :
    Except Error SurfaceTexture × GLState :=
  match env.createSurfaceTextureErr with
  | some e => (.error e, st.emit (.createSurfaceTextureFailed surface.id))
  | none =>
    let tex : SurfaceTexture := { surface := surface, gl_texture := st.nextId }
    let st := st.emit (.createSurfaceTexture surface.id st.nextId)
    (.ok tex, { st with nextId := st.nextId + 1 })

/-- Modelled from the spec: `destroy_surface_texture` (surface module, not
among the sources) destroys the GL texture and yields back the underlying
Surface rather than freeing GPU memory twice; on failure the wrapped
surface is not recovered. -/
def destroy_surface_texture (env : Env) (st : GLState) (tex : SurfaceTexture) :
    Except Error Surface × GLState :=
  match env.destroySurfaceTextureErr with
  | some e => (.error e, st.emit (.destroySurfaceTextureFailed tex.gl_texture))
  | none => (.ok tex.surface, st.emit (.destroySurfaceTexture tex.gl_texture))

/-- Modelled from the spec: `destroy_surface` (surface module, not among
the sources) frees the surface's GPU allocation. -/
def destroy_surface (env : Env) (st : GLState) (surface : Surface) :
    Except Error Unit × GLState :=
  match env.destroySurfaceErr with
  | some e => (.error e, st.emit (.destroySurfaceFailed surface.id))
  | none => (.ok (), st.emit (.destroySurface surface.id))

/-- Modelled from the spec: `Renderbuffers::new` (surface module, not among
the sources) allocates depth/stencil storage sized to match the surface. -/
def Renderbuffers.new (st : GLState) (size : Size) (_info : GLInfo) :
    Renderbuffers × GLState :=
  ({ size := size }, st.emit (.newRenderbuffers size))

/-- Modelled from the spec: `Renderbuffers::bind_to_current_framebuffer`
attaches the depth/stencil storage to the currently bound framebuffer. -/
def Renderbuffers.bind_to_current_framebuffer (rb : Renderbuffers)
    (st : GLState) : GLState :=
  st.emit (.bindRenderbuffersToFramebuffer rb.size)

/-- Modelled from the spec: `Renderbuffers::destroy` frees the
depth/stencil storage. -/
def Renderbuffers.destroy (rb : Renderbuffers) (st : GLState) : GLState :=
  st.emit (.destroyRenderbuffers rb.size)

/-- Embedding of `Device::destroy_context` (context.rs lines 235-270).  Null handle:
return `Ok(())` at once, untouched.  Otherwise `mem::replace` the
framebuffer with `None`; if it was `Object`, destroy the renderbuffers,
delete the framebuffer object when its id is nonzero, destroy the surface
texture and, when that succeeded, the recovered surface, recording the
error of the failing step; finally always invoke the releaser on the
handle and null it out. -/
def destroy_context (env : Env) (st : GLState) (context : Context) :
    Except Error Unit × Context × GLState :=
  if context.cgl_context = 0 then
    (.ok (), context, st)
  else
    let fb := context.framebuffer
    let context := { context with framebuffer := .none }
    let (result, st) :=
      match fb with
      | .object framebuffer_object color_surface_texture renderbuffers =>
        let st := renderbuffers.destroy st
        let st :=
          if framebuffer_object ≠ 0 then st.emit (.deleteFramebuffer framebuffer_object)
          else st
        match destroy_surface_texture env st color_surface_texture with
        | (.error err, st) => ((.error err : Except Error Unit), st)
        | (.ok surface, st) =>
          match destroy_surface env st surface with
          | (.error err, st) => ((.error err : Except Error Unit), st)
          | (.ok (), st) => ((.ok () : Except Error Unit), st)
      | _ => ((.ok () : Except Error Unit), st)
    let st := st.emit (.releaserRelease context.releaser context.cgl_context)
    let context := { context with cgl_context := 0 }
    (result, context, st)

/-- Embedding of `Device::context_gl_info` (context.rs lines 272-275). -/
def context_gl_info (context : Context) : GLInfo :=
  context.gl_info

/-- Embedding of `Device::context_color_surface` (context.rs lines 321-329). -/
def context_color_surface (context : Context) : Option Surface :=
  match context.framebuffer with
  | .none | .window => Option.none
  | .object _ color_surface_texture _ => some color_surface_texture.surface

/-- Embedding of `Device::context_surface_framebuffer_object` (context.rs lines
377-384): exhaustive match on the framebuffer variant. -/
def context_surface_framebuffer_object (context : Context) : Except Error Nat :=
  match context.framebuffer with
  | .none => .error .NoSurfaceAttached
  | .window => .error .WindowAttached
  | .object framebuffer_object _ _ => .ok framebuffer_object

/-- Embedding of `Device::create_framebuffer` (context.rs lines 386-420): create a
surface texture for the color surface, generate and bind a fresh
framebuffer object, attach the color texture, allocate and bind fresh
renderbuffers sized to the descriptor, set the viewport to the surface's
dimensions, and install the `Object` framebuffer. -/
def create_framebuffer (env : Env) (st : GLState) (context : Context)
    (color_surface : Surface) : Except Error Unit × Context × GLState :=
  let descriptor := color_surface.descriptor
  match create_surface_texture env st color_surface with
  | (.error err, st) => (.error err, context, st)
  | (.ok color_surface_texture, st) =>
    let framebuffer_object := st.nextId
    let st := { st with nextId := st.nextId + 1 }
    let st := st.emit (.genFramebuffer framebuffer_object)
    let st := st.emit (.bindFramebuffer framebuffer_object)
    let st := st.emit (.framebufferTexture2D framebuffer_object
      color_surface_texture.gl_texture)
    let (renderbuffers, st) := Renderbuffers.new st descriptor.size context.gl_info
    let st := renderbuffers.bind_to_current_framebuffer st
    let st := { st with viewport :=
      { x := 0, y := 0, width := descriptor.size.width,
        height := descriptor.size.height } }
    let st := st.emit (.viewportSet 0 0 descriptor.size.width
      descriptor.size.height)
    let context := { context with framebuffer :=
      (.object framebuffer_object color_surface_texture renderbuffers) }
    (.ok (), context, st)

/-- Embedding of `Device::destroy_framebuffer` (context.rs lines 422-445).
`mem::replace` the framebuffer with `None`; `None` yields `(None, Ok)`;
`Window` is `unreachable!()` in the source (the only caller rejects
`Window` first), marked here with an event; for `Object`, destroy the
surface texture FIRST and return its error immediately on failure —
renderbuffers and the framebuffer object are destroyed only after it
succeeds. -/
def destroy_framebuffer (env : Env) (st : GLState) (context : Context) :
    (Option Surface × Except Error Unit) × Context × GLState :=
  let fb := context.framebuffer
  let context := { context with framebuffer := .none }
  match fb with
  | .none => ((Option.none, .ok ()), context, st)
  | .window => ((Option.none, .ok ()), context, st.emit .unreachableHit)
  | .object framebuffer_object color_surface_texture renderbuffers =>
    match destroy_surface_texture env st color_surface_texture with
    | (.error err, st) => ((Option.none, .error err), context, st)
    | (.ok old_surface, st) =>
      let st := renderbuffers.destroy st
      let st := st.emit (.deleteFramebuffer framebuffer_object)
      ((some old_surface, .ok ()), context, st)

/-- Embedding of `Device::replace_color_surface_in_existing_framebuffer` (context.rs
lines 447-473): build a texture for the new surface, rebind the color
attachment of the existing framebuffer object, swap the stored texture and
destroy the displaced one, yielding the old surface. -/
def replace_color_surface_in_existing_framebuffer (env : Env) (st : GLState)
    (context : Context) (new_color_surface : Surface) :
    Except Error Surface × Context × GLState :=
  match create_surface_texture env st new_color_surface with
  | (.error err, st) => (.error err, context, st)
  | (.ok new_color_surface_texture, st) =>
    match context.framebuffer with
    | .object framebuffer_object old_color_surface_texture renderbuffers =>
      let st := st.emit (.bindFramebuffer framebuffer_object)
      let st := st.emit (.framebufferTexture2D framebuffer_object
        new_color_surface_texture.gl_texture)
      let context := { context with framebuffer :=
        (.object framebuffer_object new_color_surface_texture renderbuffers) }
      let (r, st) := destroy_surface_texture env st old_color_surface_texture
      (r, context, st)
    | _ =>
      -- `unreachable!()` in the source: the caller only enters on `Object`.
      (.error .NoSurfaceAttached, context, st.emit .unreachableHit)

/-- Embedding of `Device::replace_context_color_surface` (context.rs lines 331-375):
reject `Window` framebuffers before any side effect; make the context
current and flush; take the fast path when an `Object` framebuffer's
surface has the same size as the new surface; otherwise destroy the old
framebuffer and create a new one, attempting to destroy the displaced
surface before propagating an error from either step. -/
def replace_context_color_surface (env : Env) (st : GLState)
    (context : Context) (new_color_surface : Surface) :
    Except Error (Option Surface) × Context × GLState :=
  match context.framebuffer with
  | .window => (.error .WindowAttached, context, st)
  | _ =>
    match make_context_current env st context with
    | (.error err, st) => (.error err, context, st)
    | (.ok (), st) =>
      let st := st.emit .flush
      let can_modify_existing_framebuffer : Bool :=
        match context.framebuffer with
        | .object _ color_surface_texture _ =>
          decide (color_surface_texture.surface.descriptor.size =
            new_color_surface.descriptor.size)
        | _ => false
      if can_modify_existing_framebuffer then
        let (r, context, st) :=
          replace_color_surface_in_existing_framebuffer env st context
            new_color_surface
        (r.map some, context, st)
      else
        let ((old_surface, result), context, st) := destroy_framebuffer env st context
        match result with
        | .error err =>
          let st :=
            match old_surface with
            | some s => (destroy_surface env st s).2
            | Option.none => st
          (.error err, context, st)
        | .ok () =>
          match create_framebuffer env st context new_color_surface with
          | (.error err, context, st) =>
            let st :=
              match old_surface with
              | some s => (destroy_surface env st s).2
              | Option.none => st
            (.error err, context, st)
          | (.ok (), context, st) => (.ok old_surface, context, st)

/-- The CGL pixel-format attribute key `kCGLPFAOpenGLProfile` (99). -/
def kCGLPFAOpenGLProfile : Nat := 99

/-- The CGL profile value `kCGLOGLPVersion_Legacy` (0x1000). -/
def kCGLOGLPVersion_Legacy : Nat := 4096

/-- The CGL profile value `kCGLOGLPVersion_3_2_Core` (0x3200). -/
def kCGLOGLPVersion_3_2_Core : Nat := 12800

/-- The pixel-format attribute array built by `create_context` (context.rs
lines 178-187): only the OpenGL profile, chosen from the requested major
version, followed by the zero terminator. -/
def pixel_format_attributes (attributes : ContextAttributes) : List Nat :=
  let profile :=
    if attributes.flavor.version.major ≥ 3 then kCGLOGLPVersion_3_2_Core
    else kCGLOGLPVersion_Legacy
  [kCGLPFAOpenGLProfile, profile, 0, 0]

/-- The one-time GL symbol load performed under `CREATE_CONTEXT_MUTEX`
(context.rs lines 223-228 and 153-158): when the guarded flag is still
false, run `gl::load_with` and set the flag. -/
def load_gl_if_needed (st : GLState) : GLState :=
  if st.contextCreated then st
  else
    let st := st.emit .loadGL
    { st with contextCreated := true }

/-- Embedding of `Device::create_context` (context.rs lines 171-233): reject GLES; under
the create-context mutex, choose a pixel format from the profile-only
attribute array, create the native context, make it current, build the
Context with `Framebuffer::None` and an `OwnedCGLContext` releaser, run
the one-time GL load if this is the first successful creation, and
populate the GL info. -/
def create_context (env : Env) (st : GLState) (_device : Device)
    (attributes : ContextAttributes) : Except Error Context × GLState :=
  if attributes.flavor.api = GLApi.GLES then
    (.error .UnsupportedGLType, st)
  else
    let st := st.emit (.choosePixelFormat (pixel_format_attributes attributes))
    if env.choosePixelFormatErr ≠ 0 then
      (.error (.PixelFormatSelectionFailed env.choosePixelFormatErr), st)
    else if env.pixelFormatCount = 0 then
      (.error .NoPixelFormatFound, st)
    else if env.createContextErr ≠ 0 then
      (.error (.ContextCreationFailed env.createContextErr), st)
    else
      let cgl_context := st.nextId
      let st := { st with nextId := st.nextId + 1 }
      let st := st.emit (.createNativeContext cgl_context)
      let st := st.emit (.setCurrentContext cgl_context)
      if env.setCurrentErr ≠ 0 then
        (.error (.MakeCurrentFailed env.setCurrentErr), st)
      else
        let st := { st with currentContext := cgl_context }
        let context : Context :=
          { cgl_context := cgl_context, framebuffer := .none,
            gl_info := GLInfo.new attributes,
            releaser := ownedCGLContextReleaser }
        let st := load_gl_if_needed st
        let context := { context with gl_info := context.gl_info.populate }
        (.ok context, st)

/-- Values the adoption path reads from the already-current native context
(display, context handle, client version, and the config's
alpha/depth/stencil sizes). -/
structure AdoptEnv where
  egl_display : Nat
  egl_context : Nat
  client_version : Nat
  alpha_size : Nat
  depth_size : Nat
  stencil_size : Nat
  deriving DecidableEq

/-- Embedding of `Device::from_current_context` (context.rs lines 60-169): under the
create-context mutex, read the current display/context, build a Device,
reconstruct attribute flags from the config's nonzero alpha/depth/stencil
sizes, build a Context tagged as externally owned (rendering into a target
hidden from the library, rejected by surface replacement like `Window`) with
the supplied releaser, run the one-time GL load if needed, and populate
the GL info. -/
def from_current_context (adopt : AdoptEnv) (st : GLState) (releaser : Nat) :
    (Device × Context) × GLState :=
  let device : Device := { deviceId := adopt.egl_display }
  let version : GLVersion := { major := adopt.client_version, minor := 0 }
  let attribute_flags : ContextAttributeFlags :=
    { alpha := adopt.alpha_size ≠ 0, depth := adopt.depth_size ≠ 0,
      stencil := adopt.stencil_size ≠ 0 }
  let attributes : ContextAttributes :=
    { flags := attribute_flags,
      flavor := { api := GLApi.GL, version := version } }
  let context : Context :=
    { cgl_context := adopt.egl_context, framebuffer := .window,
      gl_info := GLInfo.new attributes, releaser := releaser }
  let st := load_gl_if_needed st
  let context := { context with gl_info := context.gl_info.populate }
  ((device, context), st)

/-- Embedding of `impl Drop for Context` (context.rs lines 36-43): the drop glue panics
exactly when the handle is still non-null and the thread is not already
panicking. -/
def context_drop_panics (context : Context) (thread_panicking : Bool) : Bool :=
  context.cgl_context != 0 && !thread_panicking

end Surfman

namespace Glx

/-- The GLX `GLContext` struct (gl_context.rs lines 8-14). -/
structure GLContext where
  native_context : Nat
  native_display : Nat
  native_drawable : Nat
  delete_drawable_on_drop : Bool
  is_offscreen : Bool
  deriving DecidableEq

/-- Native calls made by the GLX code. -/
inductive GlxEvent where
  | makeCurrent (display drawable context : Nat)
  deriving DecidableEq

/-- Thread-local GLX state: the current context
(`glx::GetCurrentContext`, 0 meaning none) and the trace of native
calls. -/
structure GlxState where
  currentContext : Nat
  trace : List GlxEvent
  deriving DecidableEq

/-- Return value of the native `glx::MakeCurrent` call; 0 reports
failure. -/
structure GlxEnv where
  makeCurrentResult : Nat
  deriving DecidableEq

/-- The static error strings returned by the GLX code; `GLContext::
make_current` returns the string naming the failed `glx::MakeCurrent`
call. -/
inductive GlxError where
  | makeContextCurrent
  deriving DecidableEq

/-- Embedding of `GLContext::make_current` (gl_context.rs lines 78-89): thanks to the
short-circuiting `&&`, when the context is already current no native
`MakeCurrent` is issued and the result is `Ok(())`; otherwise the native
call is made with the context's display, drawable and handle, and a zero
return yields the error. -/
def GLContext.make_current (env : GlxEnv) (st : GlxState) (self : GLContext) :
    Except GlxError Unit × GlxState :=
  if st.currentContext ≠ self.native_context then
    let st := { st with trace := st.trace ++
      [GlxEvent.makeCurrent self.native_display self.native_drawable
        self.native_context] }
    if env.makeCurrentResult = 0 then
      (.error .makeContextCurrent, st)
    else
      (.ok (), { st with currentContext := self.native_context })
  else
    (.ok (), st)

end Glx

open Surfman Glx

/-- An environment in which every native call succeeds. -/
def envAllOk : Surfman.Env :=
  { choosePixelFormatErr := 0, pixelFormatCount := 1, createContextErr := 0,
    setCurrentErr := 0, createSurfaceTextureErr := none,
    destroySurfaceTextureErr := none, destroySurfaceErr := none }

/-- The initial GL process/thread state: nothing current, no context
created yet, empty trace. -/
def initialGLState : Surfman.GLState :=
  { currentContext := 0, viewport := { x := 0, y := 0, width := 0, height := 0 },
    nextId := 1, contextCreated := false, trace := [] }

/-- A 64x64 surface descriptor. -/
def desc64 : Surfman.SurfaceDescriptor :=
  { size := { width := 64, height := 64 }, format := 0 }

/-- A 128x128 surface descriptor. -/
def desc128 : Surfman.SurfaceDescriptor :=
  { size := { width := 128, height := 128 }, format := 0 }

/-- Surface A: 64x64, identity 1. -/
def surfA : Surfman.Surface := { id := 1, descriptor := desc64 }

/-- Surface B: 64x64, identity 2 (same size as A, distinct identity). -/
def surfB : Surfman.Surface := { id := 2, descriptor := desc64 }

/-- Surface C: 128x128, identity 3 (different size). -/
def surfC : Surfman.Surface := { id := 3, descriptor := desc128 }

/-- A GL-desktop 3.2 attribute request with all three channel flags. -/
def attrsGL : Surfman.ContextAttributes :=
  { flags := { alpha := true, depth := true, stencil := true },
    flavor := { api := .GL, version := { major := 3, minor := 2 } } }

/-- A Context holding surface A in an `Object` framebuffer with id 9. -/
def ctxObjA : Surfman.Context :=
  { cgl_context := 7,
    framebuffer := .object 9 { surface := surfA, gl_texture := 5 }
      { size := { width := 64, height := 64 } },
    gl_info := Surfman.GLInfo.new attrsGL, releaser := 0 }

/-- On a null-sentinel handle, `destroy_context` is the identity with
`Ok(())`. -/
theorem destroy_context_of_null_handle (env : Env) (st : GLState)
    (context : Context) (h : context.cgl_context = 0) :
    destroy_context env st context = (.ok (), context, st) := by
  simp [destroy_context, h]

/-- Any run of `destroy_context` leaves the Context's native handle at the
null sentinel. -/
theorem destroy_context_handle_eq_zero (env : Env) (st : GLState)
    (context : Context) :
    (destroy_context env st context).2.1.cgl_context = 0 := by
  by_cases h : context.cgl_context = 0
  · simp [destroy_context, h]
  · obtain ⟨a, b, c, d, e, f, g⟩ := env
    cases hfb : context.framebuffer <;> cases f <;> cases g <;>
      simp [destroy_context, h, hfb, destroy_surface_texture, destroy_surface,
        GLState.emit]

/-- C10: `context_surface_framebuffer_object` returns
`Err(NoSurfaceAttached)` exactly when the Framebuffer is `None`,
`Err(WindowAttached)` exactly when it is `Window`, and `Ok` with the
stored framebuffer_object id exactly when it is `Object`; the function is
pure (takes `&Context`), so it never mutates the Context. -/
theorem context_surface_framebuffer_object_cases (context : Context) :
    (context_surface_framebuffer_object context = .error .NoSurfaceAttached ↔
      context.framebuffer = .none) ∧
    (context_surface_framebuffer_object context = .error .WindowAttached ↔
      context.framebuffer = .window) ∧
    ∀ fbo : Nat, context_surface_framebuffer_object context = .ok fbo ↔
      ∃ tex rb, context.framebuffer = .object fbo tex rb := by
  obtain ⟨h, fb, info, rel⟩ := context
  cases fb <;> simp [context_surface_framebuffer_object]

/-- C3: `replace_context_color_surface` on a Context whose Framebuffer is
the `Window` variant returns `Err(WindowAttached)` with no side effect:
the Context (hence the Framebuffer) and the GL state (hence the native
call trace: no make-current, flush or surface destruction) are returned
unchanged. -/
theorem replace_window_attached_no_side_effect (env : Env) (st : GLState)
    (context : Context) (new_color_surface : Surface)
    (hfb : context.framebuffer = .window) :
    replace_context_color_surface env st context new_color_surface =
      (.error .WindowAttached, context, st) := by
  simp [replace_context_color_surface, hfb]

/-- Witness for C3 at a concrete window-framebuffer Context. -/
theorem replace_window_attached_no_side_effect_witness :
    replace_context_color_surface
      { choosePixelFormatErr := 0, pixelFormatCount := 1, createContextErr := 0,
        setCurrentErr := 0, createSurfaceTextureErr := none,
        destroySurfaceTextureErr := none, destroySurfaceErr := none }
      { currentContext := 0, viewport := { x := 0, y := 0, width := 0, height := 0 },
        nextId := 1, contextCreated := false, trace := [] }
      { cgl_context := 7, framebuffer := .window,
        gl_info := GLInfo.new
          { flags := { alpha := true, depth := true, stencil := true },
            flavor := { api := .GL, version := { major := 3, minor := 2 } } },
        releaser := 0 }
      { id := 4, descriptor := { size := { width := 64, height := 64 }, format := 0 } } =
      (.error .WindowAttached,
        { cgl_context := 7, framebuffer := .window,
          gl_info := GLInfo.new
            { flags := { alpha := true, depth := true, stencil := true },
              flavor := { api := .GL, version := { major := 3, minor := 2 } } },
          releaser := 0 },
        { currentContext := 0, viewport := { x := 0, y := 0, width := 0, height := 0 },
          nextId := 1, contextCreated := false, trace := [] }) :=
  replace_window_attached_no_side_effect _ _ _ _ rfl

/-- C8: the Context drop glue panics exactly when the native handle is
still non-null and the thread is not already unwinding from a panic; in
particular a null-handle Context never panics on drop, and a non-null one
is tolerated silently only during unwind. -/
theorem context_drop_panic_policy (context : Context) (panicking : Bool) :
    context_drop_panics context panicking = true ↔
      context.cgl_context ≠ 0 ∧ panicking = false := by
  simp [context_drop_panics, Bool.and_eq_true, bne_iff_ne,
    Bool.not_eq_true']

/-- C9: the plain GLX `make_current` is a no-op returning `Ok(())` when
the context is already current on the thread (no native `MakeCurrent`
call appears in the trace); otherwise exactly one native `MakeCurrent`
with the context's display, drawable and context handle is issued,
returning `Ok(())` when the native call succeeds and the error exactly
when it reports failure (returns 0). -/
theorem glx_make_current_spec (env : GlxEnv) (st : GlxState) (self : GLContext) :
    (st.currentContext = self.native_context →
      GLContext.make_current env st self = (.ok (), st)) ∧
    (st.currentContext ≠ self.native_context →
      (env.makeCurrentResult = 0 →
        GLContext.make_current env st self = (.error .makeContextCurrent,
          { st with trace := st.trace ++
            [GlxEvent.makeCurrent self.native_display self.native_drawable
              self.native_context] })) ∧
      (env.makeCurrentResult ≠ 0 →
        GLContext.make_current env st self = (.ok (),
          { currentContext := self.native_context,
            trace := st.trace ++
              [GlxEvent.makeCurrent self.native_display self.native_drawable
                self.native_context] }))) := by
  refine ⟨fun heq => ?_, fun hne => ⟨fun hz => ?_, fun hnz => ?_⟩⟩
  · simp [GLContext.make_current, heq]
  · simp [GLContext.make_current, hne, hz]
  · simp [GLContext.make_current, hne, hnz]

/-- C4: `destroy_context` on a Context whose native handle is already the
null sentinel returns `Ok(())` immediately, leaving the Context and the
GL state (hence the trace: no Releaser invocation, no native destruction
call) unchanged; and since any `destroy_context` run nulls the handle, a
second call in a row — under any environment and state — yields `Ok(())`
and changes nothing. -/
theorem destroy_context_idempotent (env env2 : Env) (st st2 : GLState)
    (context : Context) :
    (context.cgl_context = 0 →
      destroy_context env st context = (.ok (), context, st)) ∧
    destroy_context env2 st2 (destroy_context env st context).2.1 =
      (.ok (), (destroy_context env st context).2.1, st2) := by
  constructor
  · intro h
    exact destroy_context_of_null_handle env st context h
  · exact destroy_context_of_null_handle env2 st2 _
      (destroy_context_handle_eq_zero env st context)

/-- Witness for C4: destroying the concrete already-destroyed Context (and
destroying a live one twice) returns `Ok(())` without touching anything. -/
theorem destroy_context_idempotent_witness :
    (destroy_context envAllOk initialGLState
        { cgl_context := 0, framebuffer := .none,
          gl_info := Surfman.GLInfo.new attrsGL, releaser := 0 } =
      (.ok (),
        { cgl_context := 0, framebuffer := .none,
          gl_info := Surfman.GLInfo.new attrsGL, releaser := 0 },
        initialGLState)) ∧
    destroy_context envAllOk initialGLState
        (destroy_context envAllOk initialGLState ctxObjA).2.1 =
      (.ok (), (destroy_context envAllOk initialGLState ctxObjA).2.1,
        initialGLState) :=
  ⟨(destroy_context_idempotent envAllOk envAllOk initialGLState initialGLState
      _).1 rfl,
    (destroy_context_idempotent envAllOk envAllOk initialGLState initialGLState
      ctxObjA).2⟩

/-- C1: fast path of `replace_context_color_surface`.  On a Context whose
Framebuffer is `Object` holding surface A, replacing with a surface B of
identical descriptor size (with the native make-current, texture-creation
and texture-destruction calls succeeding) returns `Ok(Some(A))`, leaves
the Context's color surface exactly B (a fresh texture wrapping B sits in
the framebuffer), keeps the same framebuffer_object id and renderbuffers,
and the trace shows no framebuffer-object generation, deletion or viewport
change — no recreation. -/
theorem replace_same_size_fast_path (env : Env) (st : GLState)
    (context : Context) (fbo : Nat) (texA : SurfaceTexture)
    (rb : Renderbuffers) (b : Surface)
    (hfb : context.framebuffer = .object fbo texA rb)
    (hsize : b.descriptor.size = texA.surface.descriptor.size)
    (hmc : env.setCurrentErr = 0)
    (hcst : env.createSurfaceTextureErr = none)
    (hdst : env.destroySurfaceTextureErr = none) :
    replace_context_color_surface env st context b =
      (.ok (some texA.surface),
        { context with framebuffer :=
            (.object fbo { surface := b, gl_texture := st.nextId } rb) },
        { st with
            currentContext := context.cgl_context,
            nextId := st.nextId + 1,
            trace := st.trace ++
              [.setCurrentContext context.cgl_context, .flush,
               .createSurfaceTexture b.id st.nextId, .bindFramebuffer fbo,
               .framebufferTexture2D fbo st.nextId,
               .destroySurfaceTexture texA.gl_texture] }) ∧
    context_color_surface (replace_context_color_surface env st context b).2.1 =
      some b := by
  obtain ⟨h, fb, info, rel⟩ := context
  simp only at hfb
  subst hfb
  simp [replace_context_color_surface, make_context_current, hmc,
    replace_color_surface_in_existing_framebuffer, create_surface_texture,
    hcst, destroy_surface_texture, hdst, hsize, context_color_surface,
    GLState.emit, Except.map]

/-- Witness for C1: replacing surface A (64x64) by surface B (64x64, new
identity) on the concrete Object-framebuffer Context. -/
theorem replace_same_size_fast_path_witness :
    replace_context_color_surface envAllOk initialGLState ctxObjA surfB =
      (.ok (some surfA),
        { ctxObjA with framebuffer :=
            (.object 9 { surface := surfB, gl_texture := 1 }
              { size := { width := 64, height := 64 } }) },
        { initialGLState with
            currentContext := 7,
            nextId := 2,
            trace := [.setCurrentContext 7, .flush, .createSurfaceTexture 2 1,
              .bindFramebuffer 9, .framebufferTexture2D 9 1,
              .destroySurfaceTexture 5] }) ∧
    context_color_surface
        (replace_context_color_surface envAllOk initialGLState ctxObjA surfB).2.1 =
      some surfB :=
  replace_same_size_fast_path envAllOk initialGLState ctxObjA 9
    { surface := surfA, gl_texture := 5 } { size := { width := 64, height := 64 } }
    surfB rfl rfl rfl rfl rfl

/-- C2: slow path of `replace_context_color_surface`.  On a Context whose
`Object` framebuffer holds a surface of one size, replacing with a surface
of a different size (native calls succeeding) returns `Ok(Some(prior
surface))`, leaves the Framebuffer as `Object` wrapping the new surface
with fresh renderbuffers sized to it, and sets the GL viewport to
`{0, 0, new width, new height}` — the old framebuffer object is destroyed
and a brand-new one generated. -/
theorem replace_different_size_slow_path (env : Env) (st : GLState)
    (context : Context) (fbo : Nat) (texA : SurfaceTexture)
    (rb : Renderbuffers) (b : Surface)
    (hfb : context.framebuffer = .object fbo texA rb)
    (hsize : texA.surface.descriptor.size ≠ b.descriptor.size)
    (hmc : env.setCurrentErr = 0)
    (hcst : env.createSurfaceTextureErr = none)
    (hdst : env.destroySurfaceTextureErr = none) :
    replace_context_color_surface env st context b =
      (.ok (some texA.surface),
        { context with framebuffer :=
            (.object (st.nextId + 1) { surface := b, gl_texture := st.nextId }
              { size := b.descriptor.size }) },
        { st with
            currentContext := context.cgl_context,
            nextId := st.nextId + 2,
            viewport := { x := 0, y := 0, width := b.descriptor.size.width,
                          height := b.descriptor.size.height },
            trace := st.trace ++
              [.setCurrentContext context.cgl_context, .flush,
               .destroySurfaceTexture texA.gl_texture,
               .destroyRenderbuffers rb.size, .deleteFramebuffer fbo,
               .createSurfaceTexture b.id st.nextId,
               .genFramebuffer (st.nextId + 1),
               .bindFramebuffer (st.nextId + 1),
               .framebufferTexture2D (st.nextId + 1) st.nextId,
               .newRenderbuffers b.descriptor.size,
               .bindRenderbuffersToFramebuffer b.descriptor.size,
               .viewportSet 0 0 b.descriptor.size.width
                 b.descriptor.size.height] }) ∧
    (replace_context_color_surface env st context b).2.2.viewport =
      { x := 0, y := 0, width := b.descriptor.size.width,
        height := b.descriptor.size.height } := by
  obtain ⟨h, fb, info, rel⟩ := context
  simp only at hfb
  subst hfb
  simp [replace_context_color_surface, make_context_current, hmc,
    destroy_framebuffer, destroy_surface_texture, hdst, create_framebuffer,
    create_surface_texture, hcst, Renderbuffers.new,
    Renderbuffers.bind_to_current_framebuffer, Renderbuffers.destroy,
    hsize, GLState.emit]

/-- Witness for C2: replacing the attached 64x64 surface A by the 128x128
surface C on the concrete Context; the prior 64x64 surface comes back and
the viewport becomes `{0, 0, 128, 128}`. -/
theorem replace_different_size_slow_path_witness :
    (replace_context_color_surface envAllOk initialGLState ctxObjA surfC).1 =
      .ok (some surfA) ∧
    (replace_context_color_surface envAllOk initialGLState ctxObjA surfC).2.2.viewport =
      { x := 0, y := 0, width := 128, height := 128 } :=
  ⟨by
    rw [(replace_different_size_slow_path envAllOk initialGLState ctxObjA 9
      { surface := surfA, gl_texture := 5 }
      { size := { width := 64, height := 64 } } surfC rfl
      (by decide) rfl rfl rfl).1],
    (replace_different_size_slow_path envAllOk initialGLState ctxObjA 9
      { surface := surfA, gl_texture := 5 }
      { size := { width := 64, height := 64 } } surfC rfl
      (by decide) rfl rfl rfl).2⟩

/-- C5 counterexample: with SurfaceTexture destruction failing (the
injected error stands for an arbitrary surface-module failure),
`destroy_framebuffer` on an `Object` framebuffer returns the error
immediately; its trace records only the failed SurfaceTexture attempt —
neither the Renderbuffers' destruction nor the framebuffer object's
deletion is attempted, so the drain-and-report policy does not hold. -/
theorem destroy_framebuffer_short_circuit_counterexample :
    destroy_framebuffer
        { envAllOk with destroySurfaceTextureErr := some .GLFunctionNotFound }
        initialGLState ctxObjA =
      ((none, .error .GLFunctionNotFound),
        { ctxObjA with framebuffer := .none },
        { initialGLState with trace := [.destroySurfaceTextureFailed 5] }) ∧
    Event.destroyRenderbuffers { width := 64, height := 64 } ∉
      (destroy_framebuffer
        { envAllOk with destroySurfaceTextureErr := some .GLFunctionNotFound }
        initialGLState ctxObjA).2.2.trace ∧
    Event.deleteFramebuffer 9 ∉
      (destroy_framebuffer
        { envAllOk with destroySurfaceTextureErr := some .GLFunctionNotFound }
        initialGLState ctxObjA).2.2.trace :=
  ⟨rfl, by decide, by decide⟩

/-- C5 (amended): the teardown policy actually implemented.  For a live
Context whose Framebuffer is `Object`: `destroy_context` destroys the
Renderbuffers, deletes the framebuffer object (when its id is nonzero)
and invokes the Releaser regardless of surface-module failures, and
reports the first error encountered; but when SurfaceTexture destruction
fails, the recovered Surface is unavailable and its destruction is not
attempted.  `destroy_framebuffer` short-circuits: when SurfaceTexture
destruction fails it returns that error at once, destroying neither the
Renderbuffers nor the framebuffer object. -/
theorem teardown_actual_policy (env : Env) (st : GLState) (context : Context)
    (fbo : Nat) (tex : SurfaceTexture) (rb : Renderbuffers)
    (hfb : context.framebuffer = .object fbo tex rb)
    (hnn : context.cgl_context ≠ 0) :
    (∀ e, env.destroySurfaceTextureErr = some e →
      destroy_context env st context =
        (.error e, { context with framebuffer := .none, cgl_context := 0 },
          { st with trace := st.trace ++ [.destroyRenderbuffers rb.size] ++
              (if fbo ≠ 0 then [Event.deleteFramebuffer fbo] else []) ++
              [.destroySurfaceTextureFailed tex.gl_texture,
               .releaserRelease context.releaser context.cgl_context] })) ∧
    (env.destroySurfaceTextureErr = none →
      (∀ e, env.destroySurfaceErr = some e →
        destroy_context env st context =
          (.error e, { context with framebuffer := .none, cgl_context := 0 },
            { st with trace := st.trace ++ [.destroyRenderbuffers rb.size] ++
                (if fbo ≠ 0 then [Event.deleteFramebuffer fbo] else []) ++
                [.destroySurfaceTexture tex.gl_texture,
                 .destroySurfaceFailed tex.surface.id,
                 .releaserRelease context.releaser context.cgl_context] })) ∧
      (env.destroySurfaceErr = none →
        destroy_context env st context =
          (.ok (), { context with framebuffer := .none, cgl_context := 0 },
            { st with trace := st.trace ++ [.destroyRenderbuffers rb.size] ++
                (if fbo ≠ 0 then [Event.deleteFramebuffer fbo] else []) ++
                [.destroySurfaceTexture tex.gl_texture,
                 .destroySurface tex.surface.id,
                 .releaserRelease context.releaser context.cgl_context] }))) ∧
    (∀ e, env.destroySurfaceTextureErr = some e →
      destroy_framebuffer env st context =
        ((none, .error e), { context with framebuffer := .none },
          st.emit (.destroySurfaceTextureFailed tex.gl_texture))) ∧
    (env.destroySurfaceTextureErr = none →
      destroy_framebuffer env st context =
        ((some tex.surface, .ok ()), { context with framebuffer := .none },
          { st with trace := st.trace ++
              [.destroySurfaceTexture tex.gl_texture,
               .destroyRenderbuffers rb.size,
               .deleteFramebuffer fbo] })) := by
  obtain ⟨h, fb, info, rel⟩ := context
  simp only at hfb hnn
  subst hfb
  refine ⟨fun e he => ?_, fun hn => ⟨fun e he => ?_, fun hs => ?_⟩,
    fun e he => ?_, fun hn => ?_⟩
  · by_cases hf : fbo = 0 <;>
      simp [destroy_context, destroy_surface_texture, Renderbuffers.destroy,
        GLState.emit, hnn, hf, he]
  · by_cases hf : fbo = 0 <;>
      simp [destroy_context, destroy_surface_texture, destroy_surface,
        Renderbuffers.destroy, GLState.emit, hnn, hf, hn, he]
  · by_cases hf : fbo = 0 <;>
      simp [destroy_context, destroy_surface_texture, destroy_surface,
        Renderbuffers.destroy, GLState.emit, hnn, hf, hn, hs]
  · simp [destroy_framebuffer, destroy_surface_texture, Renderbuffers.destroy,
      GLState.emit, he]
  · simp [destroy_framebuffer, destroy_surface_texture, Renderbuffers.destroy,
      GLState.emit, hn]

/-- Witness for C5 (amended): the successful drain on the concrete
Context, through `destroy_framebuffer`. -/
theorem teardown_actual_policy_witness :
    destroy_framebuffer envAllOk initialGLState ctxObjA =
      ((some surfA, .ok ()), { ctxObjA with framebuffer := .none },
        { initialGLState with trace :=
            [.destroySurfaceTexture 5,
             .destroyRenderbuffers { width := 64, height := 64 },
             .deleteFramebuffer 9] }) :=
  (teardown_actual_policy envAllOk initialGLState ctxObjA 9
    { surface := surfA, gl_texture := 5 }
    { size := { width := 64, height := 64 } } rfl (by decide)).2.2.2 rfl

/-- A desktop-GL 3.2 attribute request with no channel flags at all. -/
def attrsGLPlain : Surfman.ContextAttributes :=
  { flags := { alpha := false, depth := false, stencil := false },
    flavor := { api := .GL, version := { major := 3, minor := 2 } } }

/-- C6 counterexample: the attribute array handed to the native
pixel-format chooser by `create_context` holds only the version-derived
profile (`[kCGLPFAOpenGLProfile, kCGLOGLPVersion_3_2_Core, 0, 0]`), and
two requests differing in alpha/depth/stencil presence produce the
identical array — the selected pixel format cannot match the requested
channel flags. -/
theorem pixel_format_ignores_flags_counterexample :
    (create_context envAllOk initialGLState { deviceId := 0 } attrsGL).2.trace.head? =
      some (.choosePixelFormat [99, 12800, 0, 0]) ∧
    pixel_format_attributes attrsGL = pixel_format_attributes attrsGLPlain ∧
    attrsGL.flags ≠ attrsGLPlain.flags := by
  refine ⟨rfl, rfl, by decide⟩

/-- C6 (amended): `create_context`'s pixel-format selection depends only
on the requested GL version (3.2 Core profile when the major version is
at least 3, Legacy otherwise) — the alpha/depth/stencil flags play no
part in it — while `context_gl_info` on the returned Context reports
exactly the requested flags, because the GLInfo records the request's
attributes. -/
theorem create_context_pixel_format_and_gl_info (env : Env) (st : GLState)
    (device : Device) (a b : ContextAttributes)
    (hapi : a.flavor.api = .GL)
    (hver : a.flavor.version = b.flavor.version)
    (hcpf : env.choosePixelFormatErr = 0) (hcnt : env.pixelFormatCount ≠ 0)
    (hcc : env.createContextErr = 0) (hmc : env.setCurrentErr = 0) :
    pixel_format_attributes a = pixel_format_attributes b ∧
    (create_context env st device a).1 =
      .ok { cgl_context := st.nextId, framebuffer := .none,
            gl_info := { attributes := a, populated := true },
            releaser := ownedCGLContextReleaser } ∧
    ∀ context, (create_context env st device a).1 = .ok context →
      (context_gl_info context).attributes.flags = a.flags := by
  have hapi2 : a.flavor.api ≠ GLApi.GLES := by
    rw [hapi]
    intro hcon
    cases hcon
  refine ⟨?_, ?_, ?_⟩
  · simp [pixel_format_attributes, hver]
  · simp [create_context, hapi2, hcpf, hcnt, hcc, hmc, GLInfo.new,
      GLInfo.populate, load_gl_if_needed, GLState.emit]
  · intro context hctx
    simp [create_context, hapi2, hcpf, hcnt, hcc, hmc, GLInfo.new,
      GLInfo.populate, load_gl_if_needed, GLState.emit] at hctx
    rw [← hctx]
    rfl

/-- Witness for C6 (amended): at the concrete all-flags request and its
flagless twin, the arrays agree and the created Context's GLInfo carries
the requested flags. -/
theorem create_context_pixel_format_and_gl_info_witness :
    pixel_format_attributes attrsGL = pixel_format_attributes attrsGLPlain ∧
    (create_context envAllOk initialGLState { deviceId := 0 } attrsGL).1 =
      .ok { cgl_context := 1, framebuffer := .none,
            gl_info := { attributes := attrsGL, populated := true },
            releaser := ownedCGLContextReleaser } :=
  ⟨(create_context_pixel_format_and_gl_info envAllOk initialGLState
      { deviceId := 0 } attrsGL attrsGLPlain rfl rfl rfl (by decide) rfl rfl).1,
    (create_context_pixel_format_and_gl_info envAllOk initialGLState
      { deviceId := 0 } attrsGL attrsGLPlain rfl rfl rfl (by decide) rfl rfl).2.1⟩

/-- Number of one-time GL symbol-table loads (`gl::load_with` runs)
recorded in the trace. -/
def loadCount (st : Surfman.GLState) : Nat :=
  st.trace.count Surfman.Event.loadGL

/-- One mutex-serialized context-creation critical section: either a
`create_context` call or a `from_current_context` adoption.
`CREATE_CONTEXT_MUTEX` is held for the whole body of either operation, so
every interleaving of concurrent calls from any number of threads is
observationally a sequence of these atomically executed sections. -/
inductive CreateOp where
  | create (env : Surfman.Env) (device : Surfman.Device)
      (attributes : Surfman.ContextAttributes)
  | adopt (adopt : Surfman.AdoptEnv) (releaser : Nat)

/-- Run one critical section against the process GL state. -/
def runOp (st : Surfman.GLState) (op : CreateOp) : Surfman.GLState :=
  match op with
  | .create env device attributes => (create_context env st device attributes).2
  | .adopt a releaser => (from_current_context a st releaser).2

/-- Run a serialized sequence of context-creation critical sections. -/
def runOps (st : Surfman.GLState) (ops : List CreateOp) : Surfman.GLState :=
  ops.foldl runOp st

/-- The guarded one-time load: on a set flag it does nothing; on a clear
flag it performs exactly one load and sets the flag. -/
theorem load_gl_if_needed_spec (st : GLState) :
    (st.contextCreated = true ∧ load_gl_if_needed st = st) ∨
    (st.contextCreated = false ∧
      (load_gl_if_needed st).contextCreated = true ∧
      loadCount (load_gl_if_needed st) = loadCount st + 1) := by
  by_cases h : st.contextCreated
  · left
    exact ⟨h, by simp [load_gl_if_needed, h]⟩
  · right
    refine ⟨by simpa using h, by simp [load_gl_if_needed, h], ?_⟩
    simp [load_gl_if_needed, h, loadCount, GLState.emit, List.count_append]

/-- Running the guarded load on a state whose flag and load count agree
with a reference state yields the step disjunction relative to that
reference. -/
theorem load_gl_if_needed_rel (st s : GLState)
    (hflag : s.contextCreated = st.contextCreated)
    (hcount : loadCount s = loadCount st) :
    ((load_gl_if_needed s).contextCreated = st.contextCreated ∧
      loadCount (load_gl_if_needed s) = loadCount st) ∨
    (st.contextCreated = false ∧
      (load_gl_if_needed s).contextCreated = true ∧
      loadCount (load_gl_if_needed s) = loadCount st + 1) := by
  rcases load_gl_if_needed_spec s with ⟨h1, h2⟩ | ⟨h1, h2, h3⟩
  · left
    rw [h2]
    exact ⟨hflag, hcount⟩
  · right
    refine ⟨?_, h2, by rw [h3, hcount]⟩
    rw [← hflag]
    exact h1

/-- A single critical section either leaves the flag and the load count
unchanged, or — only when the flag was still clear — performs exactly one
load and sets the flag. -/
theorem runOp_load (st : GLState) (op : CreateOp) :
    ((runOp st op).contextCreated = st.contextCreated ∧
      loadCount (runOp st op) = loadCount st) ∨
    (st.contextCreated = false ∧ (runOp st op).contextCreated = true ∧
      loadCount (runOp st op) = loadCount st + 1) := by
  cases op with
  | adopt a releaser =>
    simp only [runOp, from_current_context]
    exact load_gl_if_needed_rel st st rfl rfl
  | create env device attributes =>
    by_cases hapi : attributes.flavor.api = GLApi.GLES
    · left
      constructor <;> simp [runOp, create_context, hapi]
    · by_cases h1 : env.choosePixelFormatErr = 0
      · by_cases h2 : env.pixelFormatCount = 0
        · left
          constructor <;>
            simp [runOp, create_context, hapi, h1, h2, loadCount,
              GLState.emit, List.count_append]
        · by_cases h3 : env.createContextErr = 0
          · by_cases h4 : env.setCurrentErr = 0
            · simp [runOp, create_context, hapi, h1, h2, h3, h4]
              apply load_gl_if_needed_rel st
              · rfl
              · simp [loadCount, GLState.emit, List.count_append]
            · left
              constructor <;>
                simp [runOp, create_context, hapi, h1, h2, h3, h4, loadCount,
                  GLState.emit, List.count_append]
          · left
            constructor <;>
              simp [runOp, create_context, hapi, h1, h2, h3, loadCount,
                GLState.emit, List.count_append]
      · left
        constructor <;>
          simp [runOp, create_context, hapi, h1, loadCount, GLState.emit,
            List.count_append]

/-- The process-wide invariant maintained by the guarded one-time load:
never more than one load has happened, and none while the flag is still
clear. -/
def LoadOnceInv (st : Surfman.GLState) : Prop :=
  loadCount st ≤ 1 ∧ (st.contextCreated = false → loadCount st = 0)

/-- Each serialized critical section preserves the load-once invariant. -/
theorem runOp_preserves_loadOnceInv (st : GLState) (op : CreateOp)
    (h : LoadOnceInv st) : LoadOnceInv (runOp st op) := by
  rcases runOp_load st op with ⟨hc, hl⟩ | ⟨h0, hc, hl⟩
  · constructor
    · rw [hl]
      exact h.1
    · intro hf
      rw [hl]
      exact h.2 (by rw [← hc]; exact hf)
  · constructor
    · rw [hl, h.2 h0]
    · intro hf
      rw [hc] at hf
      cases hf

/-- Any serialized sequence of critical sections preserves the load-once
invariant. -/
theorem runOps_preserves_loadOnceInv (ops : List CreateOp) (st : GLState)
    (h : LoadOnceInv st) : LoadOnceInv (runOps st ops) := by
  induction ops generalizing st with
  | nil => exact h
  | cons op ops ih => exact ih (runOp st op) (runOp_preserves_loadOnceInv st op h)

/-- C7: across all interleavings of concurrent `create_context` and
`from_current_context` calls, the one-time GL symbol-table load runs at
most once per process.  `CREATE_CONTEXT_MUTEX` is held across the entire
body of each call, so every interleaving from any number of threads is
observationally a serialized sequence of atomically executed critical
sections (`runOps`); starting from the initial process state (flag clear,
no load yet performed), any such sequence records at most one
`gl::load_with` run in the trace. -/
theorem gl_load_at_most_once (ops : List CreateOp) (st : GLState)
    (h0 : st.contextCreated = false) (h1 : loadCount st = 0) :
    loadCount (runOps st ops) ≤ 1 :=
  (runOps_preserves_loadOnceInv ops st ⟨by rw [h1]; exact Nat.zero_le 1,
    fun _ => h1⟩).1

/-- Witness for C7: two creations and one adoption in sequence from the
initial state still load the GL symbol table at most once. -/
theorem gl_load_at_most_once_witness :
    loadCount (runOps initialGLState
      [.create envAllOk { deviceId := 0 } attrsGL,
       .adopt { egl_display := 1, egl_context := 11, client_version := 3,
                alpha_size := 8, depth_size := 24, stencil_size := 8 } 4,
       .create envAllOk { deviceId := 0 } attrsGLPlain]) ≤ 1 :=
  gl_load_at_most_once _ initialGLState rfl rfl

/-- Witness for C9: a context that is already current is left alone with
`Ok(())`. -/
theorem glx_make_current_spec_witness :
    GLContext.make_current { makeCurrentResult := 0 }
      { currentContext := 5, trace := [] }
      { native_context := 5, native_display := 1, native_drawable := 2,
        delete_drawable_on_drop := false, is_offscreen := true } =
      (.ok (), { currentContext := 5, trace := [] }) :=
  (glx_make_current_spec _ _ _).1 rfl

/-- Witness for C8 at the concrete live Context outside an unwind. -/
theorem context_drop_panic_policy_witness :
    context_drop_panics ctxObjA false = true ↔
      ctxObjA.cgl_context ≠ 0 ∧ false = false :=
  context_drop_panic_policy ctxObjA false

/-- Witness for C10 at the concrete Object-framebuffer Context. -/
theorem context_surface_framebuffer_object_cases_witness :
    (context_surface_framebuffer_object ctxObjA = .error .NoSurfaceAttached ↔
      ctxObjA.framebuffer = .none) ∧
    (context_surface_framebuffer_object ctxObjA = .error .WindowAttached ↔
      ctxObjA.framebuffer = .window) ∧
    (context_surface_framebuffer_object ctxObjA = .ok 9 ↔
      ∃ tex rb, ctxObjA.framebuffer = .object 9 tex rb) :=
  ⟨(context_surface_framebuffer_object_cases ctxObjA).1,
    (context_surface_framebuffer_object_cases ctxObjA).2.1,
    (context_surface_framebuffer_object_cases ctxObjA).2.2 9⟩
